import Mathlib

/-!
Shallow embedding of `techhealth_agent.py` (TechHealth AI Wellness Assistant).

Modelling conventions, each mirroring a construct of the source:
* The Gemini backend call `self.model.generate_content(prompt).text` is an
  opaque parameter `gen : String → Except String String`; `Except.ok text`
  is a successful generation, `Except.error e` is a raised exception whose
  `str(e)` is `e`.
* Every `datetime.now()` call site becomes an explicit `String` parameter
  (`.timestamp()` and `.isoformat()` renderings are separate parameters
  where the source calls `datetime.now()` more than once).
* Python dicts used as result envelopes become structures whose optional
  keys are `Option` fields; a key absent from the dict is `none`.
* `self.session_memory` (a Python dict keyed by session id) becomes an
  association list `Store`; `sid in mem` is `store_lookup`, `mem[sid] = r`
  is `store_set` (replace-or-insert, like dict assignment), and
  `mem[sid]['interactions'].append(x)` guarded by the membership test is
  `store_append`.
-/

/-- Input record for `analyze_health_data` (`user_data`); each metric may be
absent (`dict.get` with a default renders it as "N/A"). Values are modelled
by their rendered string form. -/
structure HealthMetrics where
  heart_rate : Option String
  blood_pressure : Option String
  sleep_hours : Option String
  activity_level : Option String
deriving Repr, DecidableEq

/-- Input record for `generate_recommendations` (`user_profile`). -/
structure UserProfile where
  age : Option String
  fitness_goal : Option String
  dietary_preferences : Option String
deriving Repr, DecidableEq

/-- Result dict produced by the three advisor methods
(`analyze_health_data`, `generate_recommendations`, `answer_question`).
Keys that a given branch of the source does not put into the dict are
`none`: in particular the `except` branches build
`\x7b'agent': ..., 'status': 'error', 'error': ...\x7d` with no timestamp and
no payload. -/
structure AdvisorResult where
  agent : String
  timestamp : Option String
  analysis : Option String
  recommendations : Option String
  question : Option String
  answer : Option String
  status : String
  error : Option String
deriving Repr, DecidableEq

/-- The `workflow_result` dict built by `process_health_check`: session id,
workflow name, timestamp and the ordered list of executed step results. -/
structure WorkflowResult where
  session_id : String
  workflow : String
  timestamp : String
  steps : List AdvisorResult
deriving Repr, DecidableEq

/-- An entry of a session's `interactions` list: `handle_question` appends an
advisor result dict, `process_health_check` appends a workflow result dict. -/
inductive Interaction where
  | advisor : AdvisorResult → Interaction
  | workflow : WorkflowResult → Interaction
deriving Repr, DecidableEq

/-- A value of `self.session_memory[session_id]`:
`\x7b'user_id': ..., 'created_at': ..., 'interactions': [...]\x7d`. -/
structure SessionRecord where
  user_id : String
  created_at : String
  interactions : List Interaction
deriving Repr, DecidableEq

/-- The `session_memory` dict, as an association list from session id to
record. -/
def Store : Type := List (String × SessionRecord)

/-- Return value of `get_session_summary`: the record itself, or the
`\x7b'error': 'Session not found'\x7d` dict. -/
inductive SessionSummary where
  | record : SessionRecord → SessionSummary
  | err : String → SessionSummary
deriving Repr, DecidableEq

/-- Dict lookup: `session_memory[sid]` guarded by `sid in session_memory`. -/
def store_lookup : Store → String → Option SessionRecord
  | [], _ => none
  | (k, v) :: rest, sid => if k = sid then some v else store_lookup rest sid

/-- Dict assignment `session_memory[sid] = r`: replaces the record when the
key is present, otherwise inserts it. -/
def store_set : Store → String → SessionRecord → Store
  | [], sid, r => [(sid, r)]
  | (k, v) :: rest, sid, r =>
      if k = sid then (sid, r) :: rest else (k, v) :: store_set rest sid r

/-- The guarded append used by `process_health_check` and `handle_question`:
`if session_id in self.session_memory:
   self.session_memory[session_id]['interactions'].append(x)`.
The returned `Bool` is the value of the membership test, i.e. whether the
append was persisted. -/
def store_append (st : Store) (sid : String) (x : Interaction) :
    Bool × Store :=
  match store_lookup st sid with
  | some r =>
      (true, store_set st sid { r with interactions := r.interactions ++ [x] })
  | none => (false, st)

/-- Prompt template of `HealthMonitoringAgent.analyze_health_data`. -/
def health_prompt (d : HealthMetrics) : String :=
  "As a health monitoring AI, analyze the following health metrics:\n" ++
  "Heart Rate: " ++ d.heart_rate.getD "N/A" ++ " bpm\n" ++
  "Blood Pressure: " ++ d.blood_pressure.getD "N/A" ++ "\n" ++
  "Sleep Hours: " ++ d.sleep_hours.getD "N/A" ++ "\n" ++
  "Activity Level: " ++ d.activity_level.getD "N/A" ++ "\n" ++
  "Provide:\n1. Risk level (Low/Medium/High)\n2. Key concerns if any\n" ++
  "3. Suggested monitoring frequency\nRespond in JSON format."

/-- Prompt template of `RecommendationAgent.generate_recommendations`; note
the source reads `health_analysis.get('analysis', 'No analysis available')`,
so an error-status prior result is rendered as the placeholder. -/
def rec_prompt (p : UserProfile) (health_analysis : AdvisorResult) : String :=
  "Based on the user profile and health analysis, provide personalized recommendations:\n" ++
  "User Profile:\n" ++
  "- Age: " ++ p.age.getD "N/A" ++ "\n" ++
  "- Fitness Goal: " ++ p.fitness_goal.getD "N/A" ++ "\n" ++
  "- Dietary Preferences: " ++ p.dietary_preferences.getD "N/A" ++ "\n" ++
  "Health Analysis:\n" ++ health_analysis.analysis.getD "No analysis available" ++ "\n" ++
  "Provide:\n1. 3 actionable nutrition tips\n2. 3 exercise recommendations\n" ++
  "3. 2 lifestyle adjustments\nMake recommendations specific and achievable."

/-- Prompt template of `MedicalKnowledgeAgent.answer_question`. -/
def qa_prompt (question : String) : String :=
  "As a medical information assistant, answer this health question accurately:\n" ++
  "Question: " ++ question ++ "\n" ++
  "Provide:\n1. Clear, evidence-based answer\n2. Important disclaimers\n" ++
  "3. When to consult a healthcare professional\n" ++
  "Note: Always emphasize this is informational and not a substitute for professional medical advice."

/-- `HealthMonitoringAgent.analyze_health_data`: one generator call inside
`try`; the success dict carries agent, timestamp, analysis text and status
'success'; the `except` dict carries agent, status 'error' and the message. -/
def analyze_health_data (gen : String → Except String String) (ts : String)
    (user_data : HealthMetrics) : AdvisorResult :=
  match gen (health_prompt user_data) with
  | Except.ok text =>
      { agent := "HealthMonitor", timestamp := some ts, analysis := some text,
        recommendations := none, question := none, answer := none,
        status := "success", error := none }
  | Except.error e =>
      { agent := "HealthMonitor", timestamp := none, analysis := none,
        recommendations := none, question := none, answer := none,
        status := "error", error := some e }

/-- `RecommendationAgent.generate_recommendations`. -/
def generate_recommendations (gen : String → Except String String)
    (ts : String) (user_profile : UserProfile)
    (health_analysis : AdvisorResult) : AdvisorResult :=
  match gen (rec_prompt user_profile health_analysis) with
  | Except.ok text =>
      { agent := "RecommendationEngine", timestamp := some ts,
        analysis := none, recommendations := some text, question := none,
        answer := none, status := "success", error := none }
  | Except.error e =>
      { agent := "RecommendationEngine", timestamp := none, analysis := none,
        recommendations := none, question := none, answer := none,
        status := "error", error := some e }

/-- `MedicalKnowledgeAgent.answer_question`; the success dict echoes the
question verbatim, the `except` dict does not contain the question key. -/
def answer_question (gen : String → Except String String) (ts : String)
    (question : String) : AdvisorResult :=
  match gen (qa_prompt question) with
  | Except.ok text =>
      { agent := "MedicalQA", timestamp := some ts, analysis := none,
        recommendations := none, question := some question,
        answer := some text, status := "success", error := none }
  | Except.error e =>
      { agent := "MedicalQA", timestamp := none, analysis := none,
        recommendations := none, question := none, answer := none,
        status := "error", error := some e }

/-- The f-string `session_<user_id>_<datetime.now().timestamp()>` of
`create_session`. -/
def make_session_id (user_id ts_id : String) : String :=
  "session_" ++ user_id ++ "_" ++ ts_id

/-- `CoordinationAgent.create_session`: builds the id from the user id and
the wall-clock timestamp (`ts_id`), then assigns a fresh record (owning
user, creation time `ts_iso`, empty interactions) into `session_memory`.
Dict assignment overwrites any record already stored under the same id. -/
def create_session (ts_id ts_iso : String) (user_id : String) (st : Store) :
    String × Store :=
  let session_id := make_session_id user_id ts_id
  (session_id,
   store_set st session_id
     { user_id := user_id, created_at := ts_iso, interactions := [] })

/-- `CoordinationAgent.process_health_check`: step 1 always runs; step 2
runs only when step 1's status is 'success'; the workflow result is then
appended to the session's interactions when the session exists, and is
returned regardless. -/
def process_health_check (gen1 gen2 : String → Except String String)
    (tsW ts1 ts2 : String) (st : Store) (session_id : String)
    (user_data : HealthMetrics) (user_profile : UserProfile) :
    WorkflowResult × Store :=
  let health_analysis := analyze_health_data gen1 ts1 user_data
  let steps :=
    if health_analysis.status = "success" then
      [health_analysis,
       generate_recommendations gen2 ts2 user_profile health_analysis]
    else [health_analysis]
  let workflow_result : WorkflowResult :=
    { session_id := session_id, workflow := "health_check",
      timestamp := tsW, steps := steps }
  (workflow_result,
   (store_append st session_id (Interaction.workflow workflow_result)).2)

/-- `CoordinationAgent.handle_question`: one advisor call, best-effort
append of the result, result returned regardless. -/
def handle_question (gen : String → Except String String) (ts : String)
    (st : Store) (session_id : String) (question : String) :
    AdvisorResult × Store :=
  let result := answer_question gen ts question
  (result, (store_append st session_id (Interaction.advisor result)).2)

/-- `CoordinationAgent.get_session_summary`: returns the stored record when
the session exists, else the `'Session not found'` error dict. The method
only reads `session_memory`, so it is embedded as a pure read returning no
updated store. -/
def get_session_summary (st : Store) (session_id : String) :
    SessionSummary :=
  match store_lookup st session_id with
  | some r => SessionSummary.record r
  | none => SessionSummary.err "Session not found"

/-- A generator that always succeeds with the given text. -/
def genOk (s : String) : String → Except String String :=
  fun _ => Except.ok s

/-- A generator that always fails with the given message. -/
def genFail (m : String) : String → Except String String :=
  fun _ => Except.error m

/-- Concrete metrics input with every field absent. -/
def emptyMetrics : HealthMetrics :=
  { heart_rate := none, blood_pressure := none, sleep_hours := none,
    activity_level := none }

/-- Concrete profile input with every field absent. -/
def emptyProfile : UserProfile :=
  { age := none, fitness_goal := none, dietary_preferences := none }

/-- A concrete stored session with no interactions yet. -/
def exampleRecord : SessionRecord :=
  { user_id := "u1", created_at := "t0", interactions := [] }

/-- A concrete store holding one session "s1". -/
def exampleStore : Store := [("s1", exampleRecord)]

/-- Store right after `create_session` for user "u1" at clock value
"100.0". -/
def collideStore0 : Store := (create_session "100.0" "iso0" "u1" []).2

/-- The session id generated by that call. -/
def collideSid : String := (create_session "100.0" "iso0" "u1" []).1

/-- Store after one successful `handle_question` on that session: its
interactions list has length 1. -/
def collideStore1 : Store :=
  (handle_question (genOk "ans") "t1" collideStore0 collideSid "q").2

/-- Store after a second `create_session` for the same user in the same
clock tick: the generated id collides and dict assignment resets the
existing record. -/
def collideStore2 : Store :=
  (create_session "100.0" "iso1" "u1" collideStore1).2

/-- Append-only extension of a store: every session present before is still
present with the same owner and creation time, and its interactions list
has only grown at the end. -/
def history_extends (st st' : Store) : Prop :=
  ∀ s r, store_lookup st s = some r →
    ∃ xs, store_lookup st' s =
      some { r with interactions := r.interactions ++ xs }

/-- Looking up the key just assigned returns the assigned record. -/
theorem store_lookup_set_self : ∀ (st : Store) (sid : String)
    (r : SessionRecord), store_lookup (store_set st sid r) sid = some r
  | [], sid, r => by simp [store_set, store_lookup]
  | (k, v) :: rest, sid, r => by
      by_cases h : k = sid
      · simp [store_set, store_lookup, h]
      · simp [store_set, store_lookup, h,
          store_lookup_set_self rest sid r]

/-- Assigning one key leaves lookups of every other key unchanged. -/
theorem store_lookup_set_ne : ∀ (st : Store) (sid s : String)
    (r : SessionRecord), s ≠ sid →
    store_lookup (store_set st sid r) s = store_lookup st s
  | [], sid, s, r, h => by
      have h' : sid ≠ s := fun hh => h hh.symm
      simp [store_set, store_lookup, h']
  | (k, v) :: rest, sid, s, r, h => by
      by_cases hk : k = sid
      · have h' : sid ≠ s := fun hh => h hh.symm
        simp [store_set, store_lookup, hk, h']
      · simp [store_set, store_lookup, hk,
          store_lookup_set_ne rest sid s r h]

/-- The last element of a list extended by one element. -/
theorem getLast_append_single {α : Type} (l : List α) (a : α) :
    (l ++ [a]).getLast? = some a := by
  simp

/-- C1: for a session id present in the store, when both internal steps of
the health-check workflow report status success, the returned
WorkflowResult's steps are exactly the analysis result followed by the
recommendation result, and reading the session afterwards yields a record
whose interactions end with that WorkflowResult. -/
theorem healthCheck_success_two_steps
    (gen1 gen2 : String → Except String String) (tsW ts1 ts2 : String)
    (st : Store) (sid : String) (d : HealthMetrics) (p : UserProfile)
    (r : SessionRecord) (hmem : store_lookup st sid = some r)
    (h1 : (analyze_health_data gen1 ts1 d).status = "success")
    (h2 : (generate_recommendations gen2 ts2 p
            (analyze_health_data gen1 ts1 d)).status = "success") :
    (process_health_check gen1 gen2 tsW ts1 ts2 st sid d p).1.steps =
      [analyze_health_data gen1 ts1 d,
       generate_recommendations gen2 ts2 p
         (analyze_health_data gen1 ts1 d)] ∧
    get_session_summary
        (process_health_check gen1 gen2 tsW ts1 ts2 st sid d p).2 sid =
      SessionSummary.record
        { r with interactions := r.interactions ++
            [Interaction.workflow
              (process_health_check gen1 gen2 tsW ts1 ts2 st sid d p).1] } ∧
    (r.interactions ++
      [Interaction.workflow
        (process_health_check gen1 gen2 tsW ts1 ts2 st sid d p).1]).getLast?
      = some (Interaction.workflow
          (process_health_check gen1 gen2 tsW ts1 ts2 st sid d p).1) := by
  refine ⟨?_, ?_, ?_⟩
  · simp [process_health_check, h1]
  · simp [process_health_check, h1, store_append, hmem,
      get_session_summary, store_lookup_set_self]
  · exact getLast_append_single _ _

/-- C1 witness at a concrete store, session and succeeding generators. -/
theorem healthCheck_success_two_steps_w :
    (process_health_check (genOk "A") (genOk "R") "tw" "t1" "t2"
        exampleStore "s1" emptyMetrics emptyProfile).1.steps =
      [analyze_health_data (genOk "A") "t1" emptyMetrics,
       generate_recommendations (genOk "R") "t2" emptyProfile
         (analyze_health_data (genOk "A") "t1" emptyMetrics)] ∧
    get_session_summary
        (process_health_check (genOk "A") (genOk "R") "tw" "t1" "t2"
          exampleStore "s1" emptyMetrics emptyProfile).2 "s1" =
      SessionSummary.record
        { exampleRecord with interactions := exampleRecord.interactions ++
            [Interaction.workflow
              (process_health_check (genOk "A") (genOk "R") "tw" "t1" "t2"
                exampleStore "s1" emptyMetrics emptyProfile).1] } ∧
    (exampleRecord.interactions ++
      [Interaction.workflow
        (process_health_check (genOk "A") (genOk "R") "tw" "t1" "t2"
          exampleStore "s1" emptyMetrics emptyProfile).1]).getLast?
      = some (Interaction.workflow
          (process_health_check (genOk "A") (genOk "R") "tw" "t1" "t2"
            exampleStore "s1" emptyMetrics emptyProfile).1) :=
  healthCheck_success_two_steps (genOk "A") (genOk "R") "tw" "t1" "t2"
    exampleStore "s1" emptyMetrics emptyProfile exampleRecord
    (by decide) (by decide) (by decide)

/-- C2: when the metric-analysis step reports status error, the
recommendation advisor is not invoked (the whole output is independent of
the recommendation generator), the WorkflowResult holds exactly the one
error-status analysis step, and the WorkflowResult is still appended to the
session's history when the session exists. -/
theorem healthCheck_error_skips_rec
    (gen1 gen2 gen2' : String → Except String String)
    (tsW ts1 ts2 : String) (st : Store) (sid : String)
    (d : HealthMetrics) (p : UserProfile) (r : SessionRecord)
    (hmem : store_lookup st sid = some r)
    (h1 : (analyze_health_data gen1 ts1 d).status = "error") :
    process_health_check gen1 gen2 tsW ts1 ts2 st sid d p =
      process_health_check gen1 gen2' tsW ts1 ts2 st sid d p ∧
    (process_health_check gen1 gen2 tsW ts1 ts2 st sid d p).1.steps =
      [analyze_health_data gen1 ts1 d] ∧
    store_lookup
        (process_health_check gen1 gen2 tsW ts1 ts2 st sid d p).2 sid =
      some { r with interactions := r.interactions ++
        [Interaction.workflow
          (process_health_check gen1 gen2 tsW ts1 ts2 st sid d p).1] } := by
  refine ⟨?_, ?_, ?_⟩
  · simp [process_health_check, h1]
  · simp [process_health_check, h1]
  · simp [process_health_check, h1, store_append, hmem,
      store_lookup_set_self]

/-- C2 witness: failing analysis generator, two different recommendation
generators, concrete store. -/
theorem healthCheck_error_skips_rec_w :
    process_health_check (genFail "boom") (genOk "R") "tw" "t1" "t2"
        exampleStore "s1" emptyMetrics emptyProfile =
      process_health_check (genFail "boom") (genFail "other") "tw" "t1" "t2"
        exampleStore "s1" emptyMetrics emptyProfile ∧
    (process_health_check (genFail "boom") (genOk "R") "tw" "t1" "t2"
        exampleStore "s1" emptyMetrics emptyProfile).1.steps =
      [analyze_health_data (genFail "boom") "t1" emptyMetrics] ∧
    store_lookup
        (process_health_check (genFail "boom") (genOk "R") "tw" "t1" "t2"
          exampleStore "s1" emptyMetrics emptyProfile).2 "s1" =
      some { exampleRecord with interactions := exampleRecord.interactions ++
        [Interaction.workflow
          (process_health_check (genFail "boom") (genOk "R") "tw" "t1" "t2"
            exampleStore "s1" emptyMetrics emptyProfile).1] } :=
  healthCheck_error_skips_rec (genFail "boom") (genOk "R") (genFail "other")
    "tw" "t1" "t2" exampleStore "s1" emptyMetrics emptyProfile exampleRecord
    (by decide) (by decide)

/-- C3: every advisor operation is a total function into result values; on
generator failure at the rendered prompt it returns a status-error result
carrying the failure's message, and for any generator whatsoever the status
is one of success and error (never an escaping exception). -/
theorem advisor_error_as_value
    (gen : String → Except String String) (ts : String) (d : HealthMetrics)
    (p : UserProfile) (prior : AdvisorResult) (q : String)
    (m1 m2 m3 : String)
    (h1 : gen (health_prompt d) = Except.error m1)
    (h2 : gen (rec_prompt p prior) = Except.error m2)
    (h3 : gen (qa_prompt q) = Except.error m3) :
    ((analyze_health_data gen ts d).status = "error" ∧
     (analyze_health_data gen ts d).error = some m1) ∧
    ((generate_recommendations gen ts p prior).status = "error" ∧
     (generate_recommendations gen ts p prior).error = some m2) ∧
    ((answer_question gen ts q).status = "error" ∧
     (answer_question gen ts q).error = some m3) ∧
    (∀ gen0 : String → Except String String,
      ((analyze_health_data gen0 ts d).status = "success" ∨
       (analyze_health_data gen0 ts d).status = "error") ∧
      ((generate_recommendations gen0 ts p prior).status = "success" ∨
       (generate_recommendations gen0 ts p prior).status = "error") ∧
      ((answer_question gen0 ts q).status = "success" ∨
       (answer_question gen0 ts q).status = "error")) := by
  refine ⟨?_, ?_, ?_, ?_⟩
  · simp [analyze_health_data, h1]
  · simp [generate_recommendations, h2]
  · simp [answer_question, h3]
  · intro gen0
    refine ⟨?_, ?_, ?_⟩
    · cases hg : gen0 (health_prompt d) <;>
        simp [analyze_health_data, hg]
    · cases hg : gen0 (rec_prompt p prior) <;>
        simp [generate_recommendations, hg]
    · cases hg : gen0 (qa_prompt q) <;>
        simp [answer_question, hg]

/-- C3 witness: a generator that fails on every prompt. -/
theorem advisor_error_as_value_w :
    ((analyze_health_data (genFail "boom") "t1" emptyMetrics).status =
        "error" ∧
     (analyze_health_data (genFail "boom") "t1" emptyMetrics).error =
        some "boom") ∧
    ((generate_recommendations (genFail "boom") "t1" emptyProfile
        (analyze_health_data (genFail "boom") "t1" emptyMetrics)).status =
        "error" ∧
     (generate_recommendations (genFail "boom") "t1" emptyProfile
        (analyze_health_data (genFail "boom") "t1" emptyMetrics)).error =
        some "boom") ∧
    ((answer_question (genFail "boom") "t1" "hello").status = "error" ∧
     (answer_question (genFail "boom") "t1" "hello").error = some "boom") ∧
    (∀ gen0 : String → Except String String,
      ((analyze_health_data gen0 "t1" emptyMetrics).status = "success" ∨
       (analyze_health_data gen0 "t1" emptyMetrics).status = "error") ∧
      ((generate_recommendations gen0 "t1" emptyProfile
          (analyze_health_data (genFail "boom") "t1" emptyMetrics)).status =
          "success" ∨
       (generate_recommendations gen0 "t1" emptyProfile
          (analyze_health_data (genFail "boom") "t1" emptyMetrics)).status =
          "error") ∧
      ((answer_question gen0 "t1" "hello").status = "success" ∨
       (answer_question gen0 "t1" "hello").status = "error")) :=
  advisor_error_as_value (genFail "boom") "t1" emptyMetrics emptyProfile
    (analyze_health_data (genFail "boom") "t1" emptyMetrics) "hello"
    "boom" "boom" "boom" rfl rfl rfl

/-- C4: the session identifier is a pure function of the user id and the
wall-clock timestamp string, so two `create_session` calls that land in the
same clock tick return the SAME identifier — the uniqueness guarantee fails.
Concretely: a second call for "user_123" at clock value "1700000000.0",
made against the store produced by the first, yields the identical id. -/
theorem create_session_same_tick_collision :
    (create_session "1700000000.0" "2025-11-30T00:00:00" "user_123" []).1 =
      (create_session "1700000000.0" "2025-11-30T00:00:01" "user_123"
        (create_session "1700000000.0" "2025-11-30T00:00:00"
          "user_123" []).2).1 ∧
    (create_session "1700000000.0" "2025-11-30T00:00:00" "user_123" []).1 =
      make_session_id "user_123" "1700000000.0" := by
  exact ⟨rfl, rfl⟩

/-- C5: an append against an unknown session id reports false and leaves
the store exactly as it was; `process_health_check` and `handle_question`
on an unknown session leave the store unchanged, and the value they return
does not depend on the store at all (the caller gets the workflow result
whether or not persistence happened). -/
theorem append_unknown_noop
    (st st2 : Store) (sid : String) (x : Interaction)
    (gen1 gen2 g : String → Except String String)
    (tsW ts1 ts2 tq : String) (d : HealthMetrics) (p : UserProfile)
    (q : String) (habs : store_lookup st sid = none) :
    store_append st sid x = (false, st) ∧
    (process_health_check gen1 gen2 tsW ts1 ts2 st sid d p).2 = st ∧
    (handle_question g tq st sid q).2 = st ∧
    (process_health_check gen1 gen2 tsW ts1 ts2 st sid d p).1 =
      (process_health_check gen1 gen2 tsW ts1 ts2 st2 sid d p).1 ∧
    (handle_question g tq st sid q).1 =
      (handle_question g tq st2 sid q).1 := by
  refine ⟨?_, ?_, ?_, ?_, ?_⟩
  · simp [store_append, habs]
  · simp [process_health_check, store_append, habs]
  · simp [handle_question, store_append, habs]
  · simp [process_health_check]
  · simp [handle_question]

/-- C5 witness: unknown session id "nope" against the concrete store. -/
theorem append_unknown_noop_w :
    store_append exampleStore "nope"
        (Interaction.advisor (answer_question (genOk "A") "t1" "hello")) =
      (false, exampleStore) ∧
    (process_health_check (genOk "A") (genOk "R") "tw" "t1" "t2"
        exampleStore "nope" emptyMetrics emptyProfile).2 = exampleStore ∧
    (handle_question (genOk "A") "t1" exampleStore "nope" "hello").2 =
      exampleStore ∧
    (process_health_check (genOk "A") (genOk "R") "tw" "t1" "t2"
        exampleStore "nope" emptyMetrics emptyProfile).1 =
      (process_health_check (genOk "A") (genOk "R") "tw" "t1" "t2"
        [] "nope" emptyMetrics emptyProfile).1 ∧
    (handle_question (genOk "A") "t1" exampleStore "nope" "hello").1 =
      (handle_question (genOk "A") "t1" [] "nope" "hello").1 :=
  append_unknown_noop exampleStore [] "nope"
    (Interaction.advisor (answer_question (genOk "A") "t1" "hello"))
    (genOk "A") (genOk "R") (genOk "A") "tw" "t1" "t2" "t1"
    emptyMetrics emptyProfile "hello" (by decide)

/-- C6: `get_session_summary` returns the stored record for a present
session id and the explicit 'Session not found' error value for an absent
one; it is a pure read (it takes the store and returns only a summary, so
the store is untouched by construction, matching the read-only method). -/
theorem summary_found_or_notFound
    (st : Store) (sid : String) (r : SessionRecord)
    (st2 : Store) (sid2 : String)
    (hp : store_lookup st sid = some r)
    (ha : store_lookup st2 sid2 = none) :
    get_session_summary st sid = SessionSummary.record r ∧
    get_session_summary st2 sid2 =
      SessionSummary.err "Session not found" := by
  constructor
  · simp [get_session_summary, hp]
  · simp [get_session_summary, ha]

/-- C6 witness: present id "s1" and absent id "nope" on concrete stores. -/
theorem summary_found_or_notFound_w :
    get_session_summary exampleStore "s1" =
      SessionSummary.record exampleRecord ∧
    get_session_summary exampleStore "nope" =
      SessionSummary.err "Session not found" :=
  summary_found_or_notFound exampleStore "s1" exampleRecord
    exampleStore "nope" (by decide) (by decide)

/-- C7 counterexample: asking the question "hello" on the existing session
"s1" while the generator fails appends exactly one entry, but that entry's
question field is absent (`none`), so the verbatim question is NOT
preserved in the appended entry. -/
theorem askQuestion_error_omits_question :
    store_lookup
        (handle_question (genFail "boom") "t1" exampleStore "s1" "hello").2
        "s1" =
      some { exampleRecord with interactions := [Interaction.advisor
        { agent := "MedicalQA", timestamp := none, analysis := none,
          recommendations := none, question := none, answer := none,
          status := "error", error := some "boom" }] } ∧
    (handle_question (genFail "boom") "t1" exampleStore "s1"
        "hello").1.question = none := by
  decide

/-- C7 amended: on an existing session, `handle_question` appends exactly
one new entry (the history grows by exactly one, at the end); the entry
preserves the question verbatim whenever the generator call succeeded,
while on generator failure the entry is an error result that carries no
question field. -/
theorem askQuestion_appends_one
    (gen : String → Except String String) (ts : String) (st : Store)
    (sid q : String) (r : SessionRecord)
    (hmem : store_lookup st sid = some r) :
    store_lookup (handle_question gen ts st sid q).2 sid =
      some { r with interactions := r.interactions ++
        [Interaction.advisor (answer_question gen ts q)] } ∧
    (store_lookup (handle_question gen ts st sid q).2 sid).map
        (fun r0 => r0.interactions.length) =
      some (r.interactions.length + 1) ∧
    ((answer_question gen ts q).status = "success" ∧
       (answer_question gen ts q).question = some q ∨
     (answer_question gen ts q).status = "error" ∧
       (answer_question gen ts q).question = none) := by
  have hl : store_lookup (handle_question gen ts st sid q).2 sid =
      some { r with interactions := r.interactions ++
        [Interaction.advisor (answer_question gen ts q)] } := by
    simp [handle_question, store_append, hmem, store_lookup_set_self]
  refine ⟨hl, ?_, ?_⟩
  · rw [hl]
    simp
  · cases hg : gen (qa_prompt q) <;> simp [answer_question, hg]

/-- C7 amended witness: succeeding generator on the concrete store. -/
theorem askQuestion_appends_one_w :
    store_lookup
        (handle_question (genOk "A") "t1" exampleStore "s1" "hello").2
        "s1" =
      some { exampleRecord with interactions := exampleRecord.interactions ++
        [Interaction.advisor (answer_question (genOk "A") "t1" "hello")] } ∧
    (store_lookup
        (handle_question (genOk "A") "t1" exampleStore "s1" "hello").2
        "s1").map (fun r0 => r0.interactions.length) =
      some (exampleRecord.interactions.length + 1) ∧
    ((answer_question (genOk "A") "t1" "hello").status = "success" ∧
       (answer_question (genOk "A") "t1" "hello").question = some "hello" ∨
     (answer_question (genOk "A") "t1" "hello").status = "error" ∧
       (answer_question (genOk "A") "t1" "hello").question = none) :=
  askQuestion_appends_one (genOk "A") "t1" exampleStore "s1" "hello"
    exampleRecord (by decide)

/-- C8 counterexample: the error branch of every advisor builds a dict with
no timestamp key, so an error-status result does not carry a timestamp. -/
theorem advisor_error_missing_timestamp :
    (analyze_health_data (genFail "boom") "t1" emptyMetrics).status =
      "error" ∧
    (analyze_health_data (genFail "boom") "t1" emptyMetrics).timestamp =
      none ∧
    (generate_recommendations (genFail "boom") "t2" emptyProfile
        (analyze_health_data (genFail "boom") "t1" emptyMetrics)).timestamp =
      none ∧
    (answer_question (genFail "boom") "t3" "hello").timestamp = none := by
  decide

/-- C8 amended: every advisor result carries the producing agent's name and
a status that is success or error; a success-status result additionally
carries the timestamp, and an error-status result carries an error message
but no timestamp. -/
theorem advisor_result_fields
    (gen : String → Except String String) (ts : String) (d : HealthMetrics)
    (p : UserProfile) (prior : AdvisorResult) (q : String) :
    ((analyze_health_data gen ts d).agent = "HealthMonitor" ∧
     ((analyze_health_data gen ts d).status = "success" ∧
        (analyze_health_data gen ts d).timestamp = some ts ∨
      (analyze_health_data gen ts d).status = "error" ∧
        (analyze_health_data gen ts d).error.isSome = true ∧
        (analyze_health_data gen ts d).timestamp = none)) ∧
    ((generate_recommendations gen ts p prior).agent =
        "RecommendationEngine" ∧
     ((generate_recommendations gen ts p prior).status = "success" ∧
        (generate_recommendations gen ts p prior).timestamp = some ts ∨
      (generate_recommendations gen ts p prior).status = "error" ∧
        (generate_recommendations gen ts p prior).error.isSome = true ∧
        (generate_recommendations gen ts p prior).timestamp = none)) ∧
    ((answer_question gen ts q).agent = "MedicalQA" ∧
     ((answer_question gen ts q).status = "success" ∧
        (answer_question gen ts q).timestamp = some ts ∨
      (answer_question gen ts q).status = "error" ∧
        (answer_question gen ts q).error.isSome = true ∧
        (answer_question gen ts q).timestamp = none)) := by
  refine ⟨?_, ?_, ?_⟩
  · cases hg : gen (health_prompt d) <;> simp [analyze_health_data, hg]
  · cases hg : gen (rec_prompt p prior) <;>
      simp [generate_recommendations, hg]
  · cases hg : gen (qa_prompt q) <;> simp [answer_question, hg]

/-- A best-effort append only ever extends histories at the end. -/
theorem history_extends_store_append (st : Store) (sid : String)
    (x : Interaction) : history_extends st (store_append st sid x).2 := by
  intro s r hs
  cases hm : store_lookup st sid with
  | none => exact ⟨[], by simp [store_append, hm, hs]⟩
  | some r0 =>
      by_cases hse : s = sid
      · subst hse
        have hr : r0 = r := by
          have := hm.symm.trans hs
          exact Option.some.inj this
        subst hr
        exact ⟨[x], by simp [store_append, hm, store_lookup_set_self]⟩
      · exact ⟨[], by
          simp [store_append, hm, store_lookup_set_ne st sid s _ hse, hs]⟩

/-- C9 counterexample: a reachable collision sequence. Creating a session
for "u1" at clock value "100.0", appending one question interaction, then
creating again for "u1" in the same clock tick yields the same session id,
and the second creation resets the stored interaction sequence from length
1 back to length 0 — an existing entry is removed, so the store is not
append-only as claimed. -/
theorem create_collision_truncates :
    (store_lookup collideStore1 collideSid).map
        (fun r => r.interactions.length) = some 1 ∧
    (create_session "100.0" "iso1" "u1" collideStore1).1 = collideSid ∧
    (store_lookup collideStore2 collideSid).map
        (fun r => r.interactions.length) = some 0 := by
  decide

/-- C9 amended: provided the identifier generated by `create_session` is
not already present in the store (no id collision), every operation is
append-only: the freshly created session starts with an empty interaction
sequence, and each of `create_session`, `process_health_check` and
`handle_question` keeps every preexisting session with its owner and
creation time intact and its interaction sequence extended only at the end
(`get_session_summary` is a pure read and touches nothing). -/
theorem operations_append_only
    (tsId tsIso uid : String) (st : Store)
    (gen1 gen2 g : String → Except String String)
    (tsW ts1 ts2 tq : String) (sid q : String)
    (d : HealthMetrics) (p : UserProfile)
    (hfresh : store_lookup st (make_session_id uid tsId) = none) :
    store_lookup (create_session tsId tsIso uid st).2
        (create_session tsId tsIso uid st).1 =
      some { user_id := uid, created_at := tsIso, interactions := [] } ∧
    history_extends st (create_session tsId tsIso uid st).2 ∧
    history_extends st
      (process_health_check gen1 gen2 tsW ts1 ts2 st sid d p).2 ∧
    history_extends st (handle_question g tq st sid q).2 := by
  refine ⟨?_, ?_, ?_, ?_⟩
  · simp [create_session, store_lookup_set_self]
  · intro s r hs
    have hne : s ≠ make_session_id uid tsId := by
      intro he
      rw [he, hfresh] at hs
      cases hs
    exact ⟨[], by
      simp [create_session, store_lookup_set_ne st _ s _ hne, hs]⟩
  · exact history_extends_store_append st sid _
  · exact history_extends_store_append st sid _

/-- C9 amended witness: fresh creation for "u2" at clock value "200.0" on
the concrete store, plus the two workflow operations on session "s1". -/
theorem operations_append_only_w :
    store_lookup (create_session "200.0" "isoX" "u2" exampleStore).2
        (create_session "200.0" "isoX" "u2" exampleStore).1 =
      some { user_id := "u2", created_at := "isoX", interactions := [] } ∧
    history_extends exampleStore
      (create_session "200.0" "isoX" "u2" exampleStore).2 ∧
    history_extends exampleStore
      (process_health_check (genOk "A") (genOk "R") "tw" "t1" "t2"
        exampleStore "s1" emptyMetrics emptyProfile).2 ∧
    history_extends exampleStore
      (handle_question (genOk "A") "t1" exampleStore "s1" "hello").2 :=
  operations_append_only "200.0" "isoX" "u2" exampleStore
    (genOk "A") (genOk "R") (genOk "A") "tw" "t1" "t2" "t1" "s1" "hello"
    emptyMetrics emptyProfile (by decide)

/-- C10: `process_health_check` and `handle_question` on session `sid`
leave the lookup of every other session id `s` exactly as before. -/
theorem other_sessions_unchanged
    (gen1 gen2 g : String → Except String String)
    (tsW ts1 ts2 tq : String) (st : Store) (sid s q : String)
    (d : HealthMetrics) (p : UserProfile) (hne : s ≠ sid) :
    store_lookup
        (process_health_check gen1 gen2 tsW ts1 ts2 st sid d p).2 s =
      store_lookup st s ∧
    store_lookup (handle_question g tq st sid q).2 s =
      store_lookup st s := by
  constructor
  · cases hm : store_lookup st sid with
    | none => simp [process_health_check, store_append, hm]
    | some r0 =>
        simp [process_health_check, store_append, hm,
          store_lookup_set_ne st sid s _ hne]
  · cases hm : store_lookup st sid with
    | none => simp [handle_question, store_append, hm]
    | some r0 =>
        simp [handle_question, store_append, hm,
          store_lookup_set_ne st sid s _ hne]

/-- C10 witness: a store with two sessions; operations on "s1" leave "s2"
untouched. -/
theorem other_sessions_unchanged_w :
    store_lookup
        (process_health_check (genOk "A") (genOk "R") "tw" "t1" "t2"
          (("s2", exampleRecord) :: exampleStore) "s1" emptyMetrics
          emptyProfile).2 "s2" =
      store_lookup (("s2", exampleRecord) :: exampleStore) "s2" ∧
    store_lookup
        (handle_question (genOk "A") "t1"
          (("s2", exampleRecord) :: exampleStore) "s1" "hello").2 "s2" =
      store_lookup (("s2", exampleRecord) :: exampleStore) "s2" :=
  other_sessions_unchanged (genOk "A") (genOk "R") (genOk "A")
    "tw" "t1" "t2" "t1" (("s2", exampleRecord) :: exampleStore) "s1" "s2"
    "hello" emptyMetrics emptyProfile (by decide)
